import Mathlib

/-!
Verification development for the mongo-bench benchmarking CLI.

The repository is a Go tool that profiles MongoDB queries.  The pure
computational core (the profiler arithmetic, the repetition/averaging loop of
the comparison runner, the improvement-percentage formulas, and the test
selection logic of the run subcommand) is shallowly embedded here.

Modelling conventions:
- The Go runtime and the document store are abstract collaborators.  They are
  represented by a state type sigma threaded explicitly through every
  operation; an operation that can fail returns (sigma, Option epsilon).
- Go uint64 values are Nat together with explicit reduction mod 2 to the 64
  where the source arithmetic can wrap (the allocation-counter subtraction in
  ProfileFunc and the uint64 accumulations in the comparison runner).
- Go time.Duration (int64 nanoseconds) is Int; Go integer division on int64
  truncates toward zero, which is Int.tdiv.
- Go float64 expressions are modelled over the rationals; the divide-by-zero
  guards of the source are preserved literally.
-/

/-- Two to the 64, the modulus of Go uint64 arithmetic. -/
def u64Mod : Nat := 18446744073709551616

/-- Two to the 63, the bound separating int64-exact uint64 values from the
ones whose int64 reinterpretation is negative. -/
def i64Bound : Nat := 9223372036854775808

/-- Go uint64 subtraction: (a - b) reduced mod 2 to the 64, so it wraps
around to a huge value when a is smaller than b. -/
def goSub64 (a b : Nat) : Nat := (a + u64Mod - b) % u64Mod

/-- Go uint64 addition with wrap-around. -/
def goAdd64 (a b : Nat) : Nat := (a + b) % u64Mod

/-- Go conversion int64(x) of a uint64 value x: reinterpretation of the bits,
negative when x is at least 2 to the 63. -/
def goInt64OfUInt64 (x : Nat) : Int :=
  if x < i64Bound then (x : Int) else (x : Int) - (u64Mod : Int)

/-- Go int64 arithmetic wrap-around, applied to an unbounded intermediate
integer result. -/
def wrap64 (x : Int) : Int := (x + (i64Bound : Int)) % (u64Mod : Int) - (i64Bound : Int)

/-- The ambient Go runtime as seen by profiler.go: a state sigma on which one
can read the cumulative allocation counter (runtime.MemStats.TotalAlloc, a
uint64), read the monotonic clock (time.Now, in nanoseconds), and force a
garbage collection (runtime.GC). -/
structure RuntimeEnv (σ : Type) where
  readTotalAlloc : σ → Nat
  readClock : σ → Int
  runGC : σ → σ

/-- ProfileResult from profiler.go: { Name, ExecutionTime, MemoryUsage }. -/
structure ProfileResult where
  Name : String
  ExecutionTime : Int
  MemoryUsage : Nat
deriving DecidableEq

/-- ProfileFunc from profiler.go.  It forces a GC, samples the baseline
allocation counter, records the start time, invokes the unit of work exactly
once, records the elapsed time, samples the final allocation counter, and
returns the populated ProfileResult together with the error of the unit of
work.  The allocation delta is the literal Go uint64 subtraction
finalAlloc - baselineAlloc, with no clamping. -/
def ProfileFunc {σ ε : Type} (env : RuntimeEnv σ) (name : String)
    (fn : σ → σ × Option ε) (s : σ) : σ × ProfileResult × Option ε :=
  let s1 := env.runGC s
  let baselineAlloc := env.readTotalAlloc s1
  let startTime := env.readClock s1
  let fnOut := fn s1
  let s2 := fnOut.1
  let err := fnOut.2
  let execTime := env.readClock s2 - startTime
  let finalAlloc := env.readTotalAlloc s2
  let allocatedMem := goSub64 finalAlloc baselineAlloc
  (s2, { Name := name, ExecutionTime := execTime, MemoryUsage := allocatedMem }, err)

/-- Lift a runtime environment to a state carrying an auxiliary counter that
no runtime operation touches. -/
def liftRuntimeEnv {σ : Type} (env : RuntimeEnv σ) : RuntimeEnv (σ × Nat) where
  readTotalAlloc := fun p => env.readTotalAlloc p.1
  readClock := fun p => env.readClock p.1
  runGC := fun p => (env.runGC p.1, p.2)

/-- Instrument a unit of work with an invocation counter. -/
def countCalls {σ ε : Type} (fn : σ → σ × Option ε) :
    σ × Nat → (σ × Nat) × Option ε :=
  fun p => (((fn p.1).1, p.2 + 1), (fn p.1).2)

/-- Instrument a runtime environment so that the auxiliary counter counts the
garbage collections it performs.  ProfileFunc runs exactly one GC per
invocation and nothing else in the harness runs one, so this counter counts
profiler invocations. -/
def countGCEnv {σ : Type} (env : RuntimeEnv σ) : RuntimeEnv (σ × Nat) where
  readTotalAlloc := fun p => env.readTotalAlloc p.1
  readClock := fun p => env.readClock p.1
  runGC := fun p => (env.runGC p.1, p.2 + 1)

/-- Lift a plain unit of work over the counter-carrying state, leaving the
counter alone. -/
def liftFn {σ ε : Type} (fn : σ → σ × Option ε) :
    σ × Nat → (σ × Nat) × Option ε :=
  fun p => (((fn p.1).1, p.2), (fn p.1).2)

/-!
bench.go: the comparison runner.
-/

/-- OptimizationPair from bench.go. -/
structure OptimizationPair (σ ε : Type) where
  AntiPatternName : String
  OptimizedName : String
  AntiPatternFunc : σ → σ × Option ε
  OptimizedFunc : σ → σ × Option ε
  Description : String

/-- The document store collaborator used by bench.go beyond plain queries:
creating the supporting index (qc.Collection.Indexes().CreateOne). -/
structure StoreEnv (σ ε : Type) where
  runtime : RuntimeEnv σ
  createIndex : σ → σ × Option ε

/-- The abstract query implementations of queries.go, treated as operations
of the document store collaborator.  SortWithoutIndexAntiPattern and
SortWithIndexOptimized are referenced by bench.go; like the others they are
store operations and stay abstract here. -/
structure QueryImpls (σ ε : Type) where
  findAllFieldsAntiPattern : σ → σ × Option ε
  findWithProjectionOptimized : σ → σ × Option ε
  aggregateBeforeFilterAntiPattern : σ → σ × Option ε
  filterBeforeAggregateOptimized : σ → σ × Option ε
  sortWithoutIndexAntiPattern : σ → σ × Option ε
  sortWithIndexOptimized : σ → σ × Option ε
  findRecentEvents : σ → σ × Option ε
  findHighSeverityEvents : σ → σ × Option ε
  aggregateEventsBySeverity : σ → σ × Option ε
  findEventsWithProjection : σ → σ × Option ε
  findEventsByTimeRange : σ → σ × Option ε
  complexAggregation : σ → σ × Option ε
  findEventsWithSorting : σ → σ × Option ε

/-- GetOptimizationPairs from bench.go: the three anti-pattern/optimized
pairs, with the names and descriptions of the source. -/
def GetOptimizationPairs {σ ε : Type} (q : QueryImpls σ ε) :
    List (OptimizationPair σ ε) :=
  [ { AntiPatternName := "Anti-pattern 1 - Full Document Retrieval"
    , OptimizedName := "Optimization 1 - Using Projection"
    , AntiPatternFunc := q.findAllFieldsAntiPattern
    , OptimizedFunc := q.findWithProjectionOptimized
    , Description := "Only retrieve needed fields with projection to reduce network transfer and memory usage" }
  , { AntiPatternName := "Anti-pattern 2 - Aggregate Without Filtering"
    , OptimizedName := "Optimization 2 - Filter Before Aggregation"
    , AntiPatternFunc := q.aggregateBeforeFilterAntiPattern
    , OptimizedFunc := q.filterBeforeAggregateOptimized
    , Description := "Filter data before aggregation to reduce the number of documents to process" }
  , { AntiPatternName := "Anti-pattern 3 - Sorting Without Index"
    , OptimizedName := "Optimization 3 - Using Index for Sorting"
    , AntiPatternFunc := q.sortWithoutIndexAntiPattern
    , OptimizedFunc := q.sortWithIndexOptimized
    , Description := "Create indexes for sorting fields to speed up sorting operations" } ]

/-- The repetition constant of bench.go: const testRepetitions = 3. -/
def testRepetitions : Nat := 3

/-- The run label built by bench.go for each repetition, from
fmt.Sprintf with the pattern percent-s (run percent-d slash percent-d). -/
def mkRunName (base : String) (r reps : Nat) : String :=
  base ++ " (run " ++ toString r ++ "/" ++ toString reps ++ ")"

/-- The measurement loop of bench.go (lines 93-105 and 119-131): run
ProfileFunc over the given unit of work for the remaining number of
repetitions, accumulating elapsed time and memory usage, and skipping the
accumulation (continue) for a repetition whose unit of work returned an
error.  The argument r is the zero-based index of the current repetition,
used only for the run label. -/
def measureLoop {σ ε : Type} (env : RuntimeEnv σ) (base : String)
    (fn : σ → σ × Option ε) :
    Nat → Nat → σ → Int → Nat → σ × Int × Nat
  | 0, _, s, totalTime, totalMem => (s, totalTime, totalMem)
  | remaining + 1, r, s, totalTime, totalMem =>
    let out := ProfileFunc env (mkRunName base (r + 1) testRepetitions) fn s
    match out.2.2 with
    | some _ => measureLoop env base fn remaining (r + 1) out.1 totalTime totalMem
    | none =>
        measureLoop env base fn remaining (r + 1) out.1
          (totalTime + out.2.1.ExecutionTime) (goAdd64 totalMem out.2.1.MemoryUsage)

/-- The sequence of profiler outcomes the measurement loop observes: final
state together with the list of (ProfileResult, error) pairs of the
successive ProfileFunc invocations. -/
def profileRuns {σ ε : Type} (env : RuntimeEnv σ) (base : String)
    (fn : σ → σ × Option ε) :
    Nat → Nat → σ → σ × List (ProfileResult × Option ε)
  | 0, _, s => (s, [])
  | remaining + 1, r, s =>
    let out := ProfileFunc env (mkRunName base (r + 1) testRepetitions) fn s
    let rest := profileRuns env base fn remaining (r + 1) out.1
    (rest.1, out.2 :: rest.2)

/-- The elapsed times of the successful repetitions in a list of profiler
outcomes. -/
def successTimes (outs : List (ProfileResult × Option ε)) : List Int :=
  (outs.filter (fun o => o.2.isNone)).map (fun o => o.1.ExecutionTime)

/-- Accumulate the memory deltas of the successful repetitions with Go
uint64 wrap-around addition, starting from a given accumulator. -/
def successMemFold (init : Nat) (outs : List (ProfileResult × Option ε)) : Nat :=
  ((outs.filter (fun o => o.2.isNone)).map (fun o => o.1.MemoryUsage)).foldl goAdd64 init

/-- The setup phase of bench.go (lines 62-86): for the third pair (index 2)
only, create the supporting index — its error is only printed, never acted
on — and then run both variants once as a warm-up, discarding results and
errors; for every other pair the state is untouched. -/
def setupState {σ ε : Type} (env : StoreEnv σ ε) (i : Nat)
    (pair : OptimizationPair σ ε) (s : σ) : σ :=
  if i = 2 then
    let s1 := (env.createIndex s).1
    let s2 := (pair.AntiPatternFunc s1).1
    let s3 := (pair.OptimizedFunc s2).1
    s3
  else s

/-- The time-improvement percentage computed by bench.go lines 141-149,
with its division-by-zero guard. -/
def computeTimeImprovement (antiTime optTime : Int) : ℚ :=
  let timeDiff := antiTime - optTime
  if 0 < antiTime then (timeDiff : ℚ) / (antiTime : ℚ) * 100 else 0

/-- The memory difference computed by bench.go line 151:
int64(antiMem) - int64(optMem) in Go int64 arithmetic. -/
def computeMemDiff (antiMem optMem : Nat) : Int :=
  wrap64 (goInt64OfUInt64 antiMem - goInt64OfUInt64 optMem)

/-- The memory-improvement percentage computed by bench.go lines 151-159,
with its 1024-byte stability floor. -/
def computeMemImprovement (antiMem optMem : Nat) : ℚ :=
  let memDiff := computeMemDiff antiMem optMem
  if 1024 < antiMem then (memDiff : ℚ) / (antiMem : ℚ) * 100 else 0

/-- The per-pair report printed by bench.go lines 170-185: the two averaged
ProfileResults, the raw differences and the two improvement percentages. -/
structure PairReport where
  antiPatternResult : ProfileResult
  optimizedResult : ProfileResult
  timeDiff : Int
  timeImprovement : ℚ
  memDiff : Int
  memImprovement : ℚ

/-- One iteration of the pair loop of RunOptimizationComparison (bench.go
lines 58-186): setup (third pair only), measure the anti-pattern variant
three times, average by dividing the totals by testRepetitions, measure the
optimized variant three times, average likewise, and compute the improvement
percentages.  Go integer division on time.Duration truncates toward zero
(Int.tdiv); the uint64 memory total uses Nat division. -/
def runPair {σ ε : Type} (env : StoreEnv σ ε) (i : Nat)
    (pair : OptimizationPair σ ε) (s : σ) : σ × PairReport :=
  let s0 := setupState env i pair s
  let anti := measureLoop env.runtime pair.AntiPatternName pair.AntiPatternFunc
    testRepetitions 0 s0 0 0
  let antiPatternResult : ProfileResult :=
    { Name := pair.AntiPatternName
    , ExecutionTime := Int.tdiv anti.2.1 (testRepetitions : Int)
    , MemoryUsage := anti.2.2 / testRepetitions }
  let opt := measureLoop env.runtime pair.OptimizedName pair.OptimizedFunc
    testRepetitions 0 anti.1 0 0
  let optimizedResult : ProfileResult :=
    { Name := pair.OptimizedName
    , ExecutionTime := Int.tdiv opt.2.1 (testRepetitions : Int)
    , MemoryUsage := opt.2.2 / testRepetitions }
  (opt.1,
    { antiPatternResult := antiPatternResult
    , optimizedResult := optimizedResult
    , timeDiff := antiPatternResult.ExecutionTime - optimizedResult.ExecutionTime
    , timeImprovement :=
        computeTimeImprovement antiPatternResult.ExecutionTime optimizedResult.ExecutionTime
    , memDiff := computeMemDiff antiPatternResult.MemoryUsage optimizedResult.MemoryUsage
    , memImprovement :=
        computeMemImprovement antiPatternResult.MemoryUsage optimizedResult.MemoryUsage })

/-- The pair loop of RunOptimizationComparison, indexed as Go's range loop
indexes it. -/
def runPairsFrom {σ ε : Type} (env : StoreEnv σ ε) :
    Nat → List (OptimizationPair σ ε) → σ → σ × List PairReport
  | _, [], s => (s, [])
  | i, pair :: rest, s =>
    let out := runPair env i pair s
    let outs := runPairsFrom env (i + 1) rest out.1
    (outs.1, out.2 :: outs.2)

/-- RunOptimizationComparison from bench.go: run every pair of the
catalogue in order and return nil.  The returned Option epsilon is the Go
error result; the source has a single return statement, return nil. -/
def RunOptimizationComparison {σ ε : Type} (env : StoreEnv σ ε)
    (q : QueryImpls σ ε) (s : σ) : (σ × List PairReport) × Option ε :=
  let outs := runPairsFrom env 0 (GetOptimizationPairs q) s
  ((outs.1, outs.2), none)

/-!
queries.go and the run subcommand (cmd/run).
-/

/-- QueryTestPair from queries.go. -/
structure QueryTestPair (σ ε : Type) where
  Name : String
  TestFunc : σ → σ × Option ε

/-- GetQueryTestPairs from queries.go: the registered catalogue of eleven
named tests, in source order. -/
def GetQueryTestPairs {σ ε : Type} (q : QueryImpls σ ε) :
    List (QueryTestPair σ ε) :=
  [ { Name := "FindAllFieldsAntiPattern", TestFunc := q.findAllFieldsAntiPattern }
  , { Name := "FindWithProjectionOptimized", TestFunc := q.findWithProjectionOptimized }
  , { Name := "AggregateBeforeFilterAntiPattern", TestFunc := q.aggregateBeforeFilterAntiPattern }
  , { Name := "FilterBeforeAggregateOptimized", TestFunc := q.filterBeforeAggregateOptimized }
  , { Name := "FindRecentEvents", TestFunc := q.findRecentEvents }
  , { Name := "FindHighSeverityEvents", TestFunc := q.findHighSeverityEvents }
  , { Name := "AggregateEventsBySeverity", TestFunc := q.aggregateEventsBySeverity }
  , { Name := "FindEventsWithProjection", TestFunc := q.findEventsWithProjection }
  , { Name := "FindEventsByTimeRange", TestFunc := q.findEventsByTimeRange }
  , { Name := "ComplexAggregation", TestFunc := q.complexAggregation }
  , { Name := "FindEventsWithSorting", TestFunc := q.findEventsWithSorting } ]

/-- The test-selection logic of runBenchmarkCmd (cmd/run, slice flag
version): if the --test flag list is nonempty, keep the catalogue entries
whose name is in the list (the source builds a membership map and filters in
catalogue order); if nothing matched, the command fails fatally
(log.Fatalf, modelled as none); an empty flag list selects the whole
catalogue. -/
def selectTests {σ ε : Type} (testsName : List String)
    (testPairs : List (QueryTestPair σ ε)) : Option (List (QueryTestPair σ ε)) :=
  if 0 < testsName.length then
    let selectedTests := testPairs.filter (fun pair => testsName.contains pair.Name)
    if selectedTests.length = 0 then none else some selectedTests
  else some testPairs

/-- The test loop of runBenchmarkCmd: profile each selected test in order;
a test whose unit of work failed is logged and skipped (continue), so its
ProfileResult is omitted from the results summary, and the remaining tests
still run. -/
def runTests {σ ε : Type} (env : RuntimeEnv σ) :
    List (QueryTestPair σ ε) → σ → σ × List ProfileResult
  | [], s => (s, [])
  | pair :: rest, s =>
    let out := ProfileFunc env pair.Name pair.TestFunc s
    let outs := runTests env rest out.1
    match out.2.2 with
    | some _ => (outs.1, outs.2)
    | none => (outs.1, out.2.1 :: outs.2)

/-- The profiler outcomes of the test loop, one per catalogue entry, in
order: every test is profiled exactly once whether or not it fails. -/
def testOutcomes {σ ε : Type} (env : RuntimeEnv σ) :
    List (QueryTestPair σ ε) → σ → σ × List (ProfileResult × Option ε)
  | [], s => (s, [])
  | pair :: rest, s =>
    let out := ProfileFunc env pair.Name pair.TestFunc s
    let outs := testOutcomes env rest out.1
    (outs.1, out.2 :: outs.2)

/-- Lift a catalogue entry over the counter-carrying state. -/
def liftTestPair {σ ε : Type} (pair : QueryTestPair σ ε) :
    QueryTestPair (σ × Nat) ε :=
  { Name := pair.Name, TestFunc := liftFn pair.TestFunc }

/-- runBenchmarkCmd (cmd/run, slice flag version), after a successful store
connection: select the tests named by the --test flags, fail fatally (none)
when a nonempty flag list matches nothing, and otherwise run the selected
tests, returning the final state and the results summary. -/
def runBenchmarkCmd {σ ε : Type} (env : RuntimeEnv σ) (q : QueryImpls σ ε)
    (testsName : List String) (s : σ) : Option (σ × List ProfileResult) :=
  match selectTests testsName (GetQueryTestPairs q) with
  | none => none
  | some testPairs => some (runTests env testPairs s)

/-!
The projection pair of queries.go over a modelled document store.

The filters of FindAllFieldsAntiPattern (queries.go lines 55-60) and
FindWithProjectionOptimized (lines 82-87) are embedded literally; the find
operation itself belongs to the MongoDB collaborator.
-/

/-- The fields of an event document that the projection pair touches,
with nanosecond timestamps; the remaining Event fields of models/event.go
are bundled as an opaque rest payload so that the anti-pattern variant
really returns full documents. -/
structure EventDoc where
  eventType : String
  severityLevel : Int
  timestamp : Int
  sourceSystem : String
  restPayload : String
deriving DecidableEq

/-- Modelled from the spec: the document store collaborator interface
(section 6), find(filter) returns the cursor of exactly the stored documents
matching the filter; the repository itself contains only the driver calls. -/
def storeFind (store : List EventDoc) (filter : EventDoc → Bool) : List EventDoc :=
  store.filter filter

/-- Twenty-four hours in nanoseconds (24 * time.Hour). -/
def hours24 : Int := 86400000000000

/-- The filter document both projection-pair variants build: severity.level
gte 3 and timestamp gte time.Now() minus 24 hours. -/
def highSeverityRecentFilter (now : Int) (d : EventDoc) : Bool :=
  (3 ≤ d.severityLevel) && (now - hours24 ≤ d.timestamp)

/-- FindAllFieldsAntiPattern from queries.go, over the modelled store: find
with the filter and no projection, decoding every field; the printed count
is the length of the returned list. -/
def FindAllFieldsAntiPattern (store : List EventDoc) (now : Int) : List EventDoc :=
  storeFind store (highSeverityRecentFilter now)

/-- The projected view of an event document: eventType, severity, timestamp
and sourceSystem, with the id suppressed (queries.go lines 89-95). -/
structure ProjectedEvent where
  eventType : String
  severityLevel : Int
  timestamp : Int
  sourceSystem : String
deriving DecidableEq

/-- The projection applied by the optimized variant. -/
def projectFields (d : EventDoc) : ProjectedEvent :=
  { eventType := d.eventType
  , severityLevel := d.severityLevel
  , timestamp := d.timestamp
  , sourceSystem := d.sourceSystem }

/-- FindWithProjectionOptimized from queries.go, over the modelled store:
the same find filter, returning only the projected fields; projection trims
fields of the matching documents and never changes which documents match. -/
def FindWithProjectionOptimized (store : List EventDoc) (now : Int) :
    List ProjectedEvent :=
  (storeFind store (highSeverityRecentFilter now)).map projectFields

/-- The seeded store of the end-to-end scenario: one hundred documents of
which the first ten have severity level at least 3 and a timestamp inside
the last twenty-four hours (time zero being now). -/
def seedStore : List EventDoc :=
  (List.range 100).map (fun j =>
    if j < 10 then
      { eventType := "Security Incident", severityLevel := 4
      , timestamp := -1000, sourceSystem := "Main Database"
      , restPayload := "full document payload" }
    else
      { eventType := "System Maintenance", severityLevel := 1
      , timestamp := -(2 * hours24), sourceSystem := "Database"
      , restPayload := "full document payload" })

/-!
Concrete instantiations used by counterexamples and witnesses.
-/

/-- Trace events recording which collaborator operation ran. -/
inductive TraceEv
  | gcEv
  | idxEv
  | antiEv
  | optEv
deriving DecidableEq

/-- A runtime whose state is the log of operations performed: constant
counters and clock, garbage collection appends an event. -/
def traceRuntime : RuntimeEnv (List TraceEv) where
  readTotalAlloc := fun _ => 0
  readClock := fun _ => 0
  runGC := fun s => s ++ [TraceEv.gcEv]

/-- A store over the trace runtime whose index creation appends an event
and returns the chosen error. -/
def traceStore (e : Option Unit) : StoreEnv (List TraceEv) Unit where
  runtime := traceRuntime
  createIndex := fun s => (s ++ [TraceEv.idxEv], e)

/-- A pair whose variants append their own events and succeed. -/
def tracePair : OptimizationPair (List TraceEv) Unit where
  AntiPatternName := "anti"
  OptimizedName := "opt"
  AntiPatternFunc := fun s => (s ++ [TraceEv.antiEv], none)
  OptimizedFunc := fun s => (s ++ [TraceEv.optEv], none)
  Description := "trace"

/-- A trivial runtime over a Nat state: constant counters and clock, GC is
the identity. -/
def natEnv : RuntimeEnv Nat where
  readTotalAlloc := fun _ => 0
  readClock := fun _ => 0
  runGC := fun s => s

/-- A unit of work that bumps the state and succeeds, so the final state
counts how many catalogue tests actually ran. -/
def incFn : Nat → Nat × Option Unit := fun s => (s + 1, none)

/-- Query implementations over the Nat state: every query bumps the
execution counter and succeeds. -/
def incQueryImpls : QueryImpls Nat Unit where
  findAllFieldsAntiPattern := incFn
  findWithProjectionOptimized := incFn
  aggregateBeforeFilterAntiPattern := incFn
  filterBeforeAggregateOptimized := incFn
  sortWithoutIndexAntiPattern := incFn
  sortWithIndexOptimized := incFn
  findRecentEvents := incFn
  findHighSeverityEvents := incFn
  aggregateEventsBySeverity := incFn
  findEventsWithProjection := incFn
  findEventsByTimeRange := incFn
  complexAggregation := incFn
  findEventsWithSorting := incFn

/-- A runtime exhibiting a shrinking allocation counter: the baseline sample
is 1 and the post-run sample is 0. -/
def shrinkRuntime : RuntimeEnv Bool where
  readTotalAlloc := fun b => if b then 0 else 1
  readClock := fun _ => 0
  runGC := fun b => b

/-- A unit of work that moves the shrinking runtime to its post state. -/
def flipFn : Bool → Bool × Option Unit := fun _ => (true, none)

/-- A runtime whose state is the clock reading itself. -/
def clockEnv : RuntimeEnv Nat where
  readTotalAlloc := fun _ => 0
  readClock := fun s => (s : Int)
  runGC := fun s => s

/-- A unit of work that advances the clock by seven and succeeds. -/
def tickFn : Nat → Nat × Option Unit := fun s => (s + 7, none)

/-!
Helper lemmas shared by the claim theorems.
-/

/-- Go int64 wrap-around is the identity on the int64 range. -/
theorem wrap64_eq_self (y : Int) (hlo : -(i64Bound : Int) ≤ y)
    (hhi : y < (i64Bound : Int)) : wrap64 y = y := by
  unfold wrap64
  have h1 : 0 ≤ y + (i64Bound : Int) := by omega
  have h2 : y + (i64Bound : Int) < (u64Mod : Int) := by
    simp only [u64Mod, i64Bound] at *
    omega
  rw [Int.emod_eq_of_lt h1 h2]
  omega

/-- The int64 reinterpretation is the identity below 2 to the 63. -/
theorem goInt64OfUInt64_eq_self (x : Nat) (h : x < i64Bound) :
    goInt64OfUInt64 x = (x : Int) := by
  unfold goInt64OfUInt64
  rw [if_pos h]

/-- For int64-exact inputs the Go memory difference of bench.go is the
plain integer difference. -/
theorem computeMemDiff_eq_sub (a b : Nat) (ha : a < i64Bound) (hb : b < i64Bound) :
    computeMemDiff a b = (a : Int) - (b : Int) := by
  unfold computeMemDiff
  rw [goInt64OfUInt64_eq_self a ha, goInt64OfUInt64_eq_self b hb]
  apply wrap64_eq_self <;> omega

/-- Wrap-around addition stays below the uint64 modulus. -/
theorem goAdd64_lt (a b : Nat) : goAdd64 a b < u64Mod := by
  unfold goAdd64 u64Mod
  omega

/-- The wrapped memory accumulator stays below the uint64 modulus. -/
theorem successMemFold_lt (outs : List (ProfileResult × Option ε)) (init : Nat)
    (h : init < u64Mod) : successMemFold init outs < u64Mod := by
  unfold successMemFold
  induction (outs.filter (fun o => o.2.isNone)).map (fun o => o.1.MemoryUsage)
      generalizing init with
  | nil => simpa using h
  | cons m ms ih => exact ih (goAdd64 init m) (goAdd64_lt init m)

/-- The measurement loop of bench.go computes exactly the filtered totals of
its profiler outcomes: the final state is the state after all repetitions,
the time total adds the elapsed times of the successful repetitions, and the
memory total folds their deltas with wrap-around addition. -/
theorem measureLoop_eq_profileRuns {σ ε : Type} (env : RuntimeEnv σ)
    (base : String) (fn : σ → σ × Option ε) :
    ∀ (n r : Nat) (s : σ) (tT : Int) (tM : Nat),
      measureLoop env base fn n r s tT tM =
        ((profileRuns env base fn n r s).1,
         tT + (successTimes (profileRuns env base fn n r s).2).sum,
         successMemFold tM (profileRuns env base fn n r s).2) := by
  intro n
  induction n with
  | zero =>
    intro r s tT tM
    simp [measureLoop, profileRuns, successTimes, successMemFold]
  | succ k ih =>
    intro r s tT tM
    simp only [measureLoop, profileRuns]
    cases h : (ProfileFunc env (mkRunName base (r + 1) testRepetitions) fn s).2.2 with
    | some e =>
      simp only [h, ih, successTimes, successMemFold, List.filter_cons,
        Option.isNone_some, Bool.false_eq_true, if_false]
    | none =>
      simp only [h, ih, successTimes, successMemFold, List.filter_cons,
        Option.isNone_none, if_true]
      simp only [List.map_cons, List.sum_cons, List.foldl_cons]
      rw [add_assoc]

/-- One profiler invocation over the GC-counting instrumentation: the
counter is bumped exactly once and everything else is the uninstrumented
behavior. -/
theorem ProfileFunc_countGC {σ ε : Type} (env : RuntimeEnv σ) (nm : String)
    (fn : σ → σ × Option ε) (s : σ) (k : Nat) :
    ProfileFunc (countGCEnv env) nm (liftFn fn) (s, k)
      = (((fn (env.runGC s)).1, k + 1),
         { Name := nm
         , ExecutionTime :=
             env.readClock (fn (env.runGC s)).1 - env.readClock (env.runGC s)
         , MemoryUsage :=
             goSub64 (env.readTotalAlloc (fn (env.runGC s)).1)
               (env.readTotalAlloc (env.runGC s)) },
         (fn (env.runGC s)).2) := rfl

/-- The measurement loop performs exactly one garbage collection — hence
exactly one profiler invocation — per repetition, whether or not the
repetition fails. -/
theorem measureLoop_gcCount {σ ε : Type} (env : RuntimeEnv σ) (base : String)
    (fn : σ → σ × Option ε) :
    ∀ (n r : Nat) (s : σ) (k : Nat) (tT : Int) (tM : Nat),
      ((measureLoop (countGCEnv env) base (liftFn fn) n r (s, k) tT tM).1).2 = k + n := by
  intro n
  induction n with
  | zero =>
    intro r s k tT tM
    simp [measureLoop]
  | succ m ih =>
    intro r s k tT tM
    simp only [measureLoop, ProfileFunc_countGC]
    cases h : (fn (env.runGC s)).2 with
    | some e =>
      simp only [h]
      rw [ih]
      omega
    | none =>
      simp only [h]
      rw [ih]
      omega

/-- The test loop of the run subcommand performs exactly one garbage
collection — hence profiles exactly once — per catalogue entry, whether or
not the entry fails. -/
theorem runTests_gcCount {σ ε : Type} (env : RuntimeEnv σ) :
    ∀ (ps : List (QueryTestPair σ ε)) (s : σ) (k : Nat),
      ((runTests (countGCEnv env) (ps.map liftTestPair) (s, k)).1).2 = k + ps.length := by
  intro ps
  induction ps with
  | nil =>
    intro s k
    simp [runTests]
  | cons p rest ih =>
    intro s k
    simp only [List.map_cons, runTests, liftTestPair, ProfileFunc_countGC]
    cases h : (p.TestFunc (env.runGC s)).2 with
    | some e =>
      simp only [h]
      rw [ih]
      simp only [List.length_cons]
      omega
    | none =>
      simp only [h]
      rw [ih]
      simp only [List.length_cons]
      omega

/-- The test loop of the run subcommand returns the profiler results of
exactly the successful tests, in catalogue order, and still threads the
state through every test. -/
theorem runTests_eq_testOutcomes {σ ε : Type} (env : RuntimeEnv σ) :
    ∀ (ps : List (QueryTestPair σ ε)) (s : σ),
      runTests env ps s
        = ((testOutcomes env ps s).1,
           ((testOutcomes env ps s).2.filter (fun o => o.2.isNone)).map (fun o => o.1)) := by
  intro ps
  induction ps with
  | nil =>
    intro s
    simp [runTests, testOutcomes]
  | cons p rest ih =>
    intro s
    simp only [runTests, testOutcomes]
    cases h : (ProfileFunc env p.Name p.TestFunc s).2.2 with
    | some e => simp [h, ih]
    | none => simp [h, ih]

/-- The pair loop reports once per pair. -/
theorem runPairsFrom_length {σ ε : Type} (env : StoreEnv σ ε) :
    ∀ (pairs : List (OptimizationPair σ ε)) (i : Nat) (s : σ),
      (runPairsFrom env i pairs s).2.length = pairs.length := by
  intro pairs
  induction pairs with
  | nil =>
    intro i s
    simp [runPairsFrom]
  | cons p rest ih =>
    intro i s
    simp [runPairsFrom, ih]

/-!
Claim theorems.
-/

/-- C1, counterexample: ProfileFunc does not clamp the memory delta.  In a
run where the baseline allocation sample is 1 and the post-run sample is 0,
the returned MemoryUsage is the wrapped-around huge uint64 value
2 to the 64 minus 1, not the 0 the claim requires. -/
theorem profileFunc_no_clamp_cex :
    (ProfileFunc shrinkRuntime "x" flipFn false).2.1.MemoryUsage = 18446744073709551615
    ∧ (ProfileFunc shrinkRuntime "x" flipFn false).2.1.MemoryUsage ≠ 0 := by
  constructor
  · decide
  · decide

/-- C1, amended: the MemoryUsage of the returned ProfileResult is the Go
uint64 subtraction of the baseline allocation sample from the post-run
allocation sample, reduced mod 2 to the 64.  When the post-run sample is at
least the baseline it is the exact difference; when the post-run sample is
smaller the result wraps around to 2 to the 64 minus the shortfall — there
is no clamping to zero. -/
theorem profileFunc_memory_wraps {σ ε : Type} (env : RuntimeEnv σ) (name : String)
    (fn : σ → σ × Option ε) (s : σ)
    (hbase : env.readTotalAlloc (env.runGC s) < u64Mod)
    (hfinal : env.readTotalAlloc (fn (env.runGC s)).1 < u64Mod) :
    ((ProfileFunc env name fn s).2.1.MemoryUsage
        = goSub64 (env.readTotalAlloc (fn (env.runGC s)).1)
            (env.readTotalAlloc (env.runGC s)))
    ∧ (env.readTotalAlloc (env.runGC s) ≤ env.readTotalAlloc (fn (env.runGC s)).1 →
        (ProfileFunc env name fn s).2.1.MemoryUsage
          = env.readTotalAlloc (fn (env.runGC s)).1 - env.readTotalAlloc (env.runGC s))
    ∧ (env.readTotalAlloc (fn (env.runGC s)).1 < env.readTotalAlloc (env.runGC s) →
        (ProfileFunc env name fn s).2.1.MemoryUsage
          = u64Mod - (env.readTotalAlloc (env.runGC s)
              - env.readTotalAlloc (fn (env.runGC s)).1)
        ∧ 0 < (ProfileFunc env name fn s).2.1.MemoryUsage) := by
  have hm : (ProfileFunc env name fn s).2.1.MemoryUsage
      = goSub64 (env.readTotalAlloc (fn (env.runGC s)).1)
          (env.readTotalAlloc (env.runGC s)) := rfl
  refine ⟨hm, ?_, ?_⟩
  · intro hle
    rw [hm]
    unfold goSub64 u64Mod at *
    omega
  · intro hlt
    rw [hm]
    unfold goSub64 u64Mod at *
    omega

/-- C1, witness for the amended theorem: on the shrinking-counter runtime
the memory delta is 2 to the 64 minus 1 and is positive, not zero. -/
theorem profileFunc_memory_wraps_witness :
    (ProfileFunc shrinkRuntime "w" flipFn false).2.1.MemoryUsage = u64Mod - 1
    ∧ 0 < (ProfileFunc shrinkRuntime "w" flipFn false).2.1.MemoryUsage := by
  have h := profileFunc_memory_wraps shrinkRuntime "w" flipFn false
    (by decide) (by decide)
  exact h.2.2 (by decide)

/-- C5: over the invocation-counting instrumentation, ProfileFunc invokes
the unit of work exactly once, returns a ProfileResult carrying the given
name, a non-negative elapsed time (given the monotonic clock), and the
sampled memory delta, paired with exactly the error value the unit of work
returned — the same ProfileResult shape with error nil on success and with
the error of the unit of work on failure. -/
theorem profileFunc_round_trip {σ ε : Type} (env : RuntimeEnv σ) (name : String)
    (fn : σ → σ × Option ε) (s : σ) (k : Nat)
    (hmono : env.readClock (env.runGC s) ≤ env.readClock (fn (env.runGC s)).1) :
    ((ProfileFunc (liftRuntimeEnv env) name (countCalls fn) (s, k)).1.2 = k + 1)
    ∧ ((ProfileFunc (liftRuntimeEnv env) name (countCalls fn) (s, k)).2.1.Name = name)
    ∧ (0 ≤ (ProfileFunc (liftRuntimeEnv env) name (countCalls fn) (s, k)).2.1.ExecutionTime)
    ∧ ((ProfileFunc (liftRuntimeEnv env) name (countCalls fn) (s, k)).2.1.MemoryUsage
        = goSub64 (env.readTotalAlloc (fn (env.runGC s)).1)
            (env.readTotalAlloc (env.runGC s)))
    ∧ ((ProfileFunc (liftRuntimeEnv env) name (countCalls fn) (s, k)).2.2
        = (fn (env.runGC s)).2) := by
  refine ⟨rfl, rfl, ?_, rfl, rfl⟩
  show 0 ≤ env.readClock (fn (env.runGC s)).1 - env.readClock (env.runGC s)
  omega

/-- C5, witness: on the clock-counting runtime with a seven-tick unit of
work, the invocation counter goes from 5 to 6, the elapsed time is
non-negative, and the returned error is nil. -/
theorem profileFunc_round_trip_witness :
    ((ProfileFunc (liftRuntimeEnv clockEnv) "x2" (countCalls tickFn) (0, 5)).1.2 = 6)
    ∧ (0 ≤ (ProfileFunc (liftRuntimeEnv clockEnv) "x2" (countCalls tickFn) (0, 5)).2.1.ExecutionTime)
    ∧ ((ProfileFunc (liftRuntimeEnv clockEnv) "x2" (countCalls tickFn) (0, 5)).2.2 = none) := by
  have h := profileFunc_round_trip clockEnv "x2" tickFn 0 5 (by decide)
  exact ⟨h.1, h.2.2.1, h.2.2.2.2⟩

/-- C10: RunOptimizationComparison returns nil for every environment, query
implementation and initial state — no index-creation, warm-up or repetition
error ever becomes the error result of the function — and every pair of the
catalogue gets its report, so the report list has exactly one entry per
pair, hence three. -/
theorem runOptimizationComparison_returns_none {σ ε : Type} (env : StoreEnv σ ε)
    (q : QueryImpls σ ε) (s : σ) :
    ((RunOptimizationComparison env q s).2 = none)
    ∧ ((RunOptimizationComparison env q s).1.2.length = (GetOptimizationPairs q).length)
    ∧ ((RunOptimizationComparison env q s).1.2.length = 3) := by
  refine ⟨rfl, ?_, ?_⟩
  · exact runPairsFrom_length env (GetOptimizationPairs q) 0 s
  · have h := runPairsFrom_length env (GetOptimizationPairs q) 0 s
    exact h

/-- Averaged uint64 memory totals are always int64-exact. -/
theorem memAverage_lt (total : Nat) (h : total < u64Mod) :
    total / testRepetitions < i64Bound := by
  unfold u64Mod i64Bound testRepetitions at *
  omega

/-- C2: in the comparison runner each variant of each pair is profiled
exactly testRepetitions = 3 times (one garbage collection per profiler
invocation on the counting instrumentation); an errored repetition
contributes nothing to the accumulated totals but the loop continues, so
the totals are the sums over exactly the successful repetitions; and the
averaged ProfileResult divides the accumulated totals by exactly 3 —
the configured repetition count, not the number of successes. -/
theorem runPair_repetition_averaging {σ ε : Type} (env : StoreEnv σ ε) (i : Nat)
    (pair : OptimizationPair σ ε) (s sB : σ) (k : Nat) (base : String)
    (f : σ → σ × Option ε) :
    (((measureLoop (countGCEnv env.runtime) base (liftFn f) testRepetitions 0
        (sB, k) 0 0).1).2 = k + 3)
    ∧ ((measureLoop env.runtime base f testRepetitions 0 sB 0 0).2.1
        = (successTimes (profileRuns env.runtime base f testRepetitions 0 sB).2).sum)
    ∧ ((measureLoop env.runtime base f testRepetitions 0 sB 0 0).2.2
        = successMemFold 0 (profileRuns env.runtime base f testRepetitions 0 sB).2)
    ∧ ((runPair env i pair s).2.antiPatternResult.ExecutionTime
        = Int.tdiv (successTimes (profileRuns env.runtime pair.AntiPatternName
            pair.AntiPatternFunc testRepetitions 0 (setupState env i pair s)).2).sum
            (testRepetitions : Int))
    ∧ ((runPair env i pair s).2.antiPatternResult.MemoryUsage
        = successMemFold 0 (profileRuns env.runtime pair.AntiPatternName
            pair.AntiPatternFunc testRepetitions 0 (setupState env i pair s)).2
            / testRepetitions)
    ∧ ((runPair env i pair s).2.optimizedResult.ExecutionTime
        = Int.tdiv (successTimes (profileRuns env.runtime pair.OptimizedName
            pair.OptimizedFunc testRepetitions 0
            ((profileRuns env.runtime pair.AntiPatternName pair.AntiPatternFunc
              testRepetitions 0 (setupState env i pair s)).1)).2).sum
            (testRepetitions : Int))
    ∧ ((runPair env i pair s).2.optimizedResult.MemoryUsage
        = successMemFold 0 (profileRuns env.runtime pair.OptimizedName
            pair.OptimizedFunc testRepetitions 0
            ((profileRuns env.runtime pair.AntiPatternName pair.AntiPatternFunc
              testRepetitions 0 (setupState env i pair s)).1)).2
            / testRepetitions) := by
  have hmid : (measureLoop env.runtime pair.AntiPatternName pair.AntiPatternFunc
      testRepetitions 0 (setupState env i pair s) 0 0).1
      = (profileRuns env.runtime pair.AntiPatternName pair.AntiPatternFunc
          testRepetitions 0 (setupState env i pair s)).1 := by
    rw [measureLoop_eq_profileRuns]
  refine ⟨measureLoop_gcCount env.runtime base f testRepetitions 0 sB k 0 0,
    ?_, ?_, ?_, ?_, ?_, ?_⟩
  · rw [measureLoop_eq_profileRuns]
    simp
  · rw [measureLoop_eq_profileRuns]
  · have e1 : (runPair env i pair s).2.antiPatternResult.ExecutionTime
        = Int.tdiv (measureLoop env.runtime pair.AntiPatternName pair.AntiPatternFunc
            testRepetitions 0 (setupState env i pair s) 0 0).2.1
            (testRepetitions : Int) := rfl
    rw [e1, measureLoop_eq_profileRuns]
    simp
  · have e2 : (runPair env i pair s).2.antiPatternResult.MemoryUsage
        = (measureLoop env.runtime pair.AntiPatternName pair.AntiPatternFunc
            testRepetitions 0 (setupState env i pair s) 0 0).2.2
            / testRepetitions := rfl
    rw [e2, measureLoop_eq_profileRuns]
  · have e3 : (runPair env i pair s).2.optimizedResult.ExecutionTime
        = Int.tdiv (measureLoop env.runtime pair.OptimizedName pair.OptimizedFunc
            testRepetitions 0
            ((measureLoop env.runtime pair.AntiPatternName pair.AntiPatternFunc
              testRepetitions 0 (setupState env i pair s) 0 0).1) 0 0).2.1
            (testRepetitions : Int) := rfl
    rw [e3, hmid, measureLoop_eq_profileRuns]
    simp
  · have e4 : (runPair env i pair s).2.optimizedResult.MemoryUsage
        = (measureLoop env.runtime pair.OptimizedName pair.OptimizedFunc
            testRepetitions 0
            ((measureLoop env.runtime pair.AntiPatternName pair.AntiPatternFunc
              testRepetitions 0 (setupState env i pair s) 0 0).1) 0 0).2.2
            / testRepetitions := rfl
    rw [e4, hmid, measureLoop_eq_profileRuns]

/-- C3: the time-improvement percentage equals
(antiTime - optTime) / antiTime * 100 whenever antiTime is positive — and
the denominator is then nonzero, so the division is never by zero — and it
is exactly 0 when antiTime is zero. -/
theorem computeTimeImprovement_spec (antiTime optTime : Int) :
    (0 < antiTime →
      computeTimeImprovement antiTime optTime
        = ((antiTime : ℚ) - (optTime : ℚ)) / (antiTime : ℚ) * 100
      ∧ (antiTime : ℚ) ≠ 0)
    ∧ (antiTime = 0 → computeTimeImprovement antiTime optTime = 0) := by
  constructor
  · intro h
    constructor
    · simp only [computeTimeImprovement, if_pos h]
      push_cast
      ring
    · exact_mod_cast h.ne'
  · intro h
    subst h
    simp [computeTimeImprovement]

/-- C3, witness: at antiTime 200 and optTime 50 the percentage is 75; at
antiTime 0 it is 0. -/
theorem computeTimeImprovement_spec_witness :
    computeTimeImprovement 200 50 = 75 ∧ computeTimeImprovement 0 7 = 0 := by
  refine ⟨?_, (computeTimeImprovement_spec 0 7).2 rfl⟩
  have h := ((computeTimeImprovement_spec 200 50).1 (by decide)).1
  rw [h]
  norm_num

/-- C4: the memory-improvement percentage is forced to exactly 0 whenever
the averaged anti-pattern memory is at most 1024 bytes, for every optimized
value including larger ones; above the 1024-byte floor it equals
(antiMem - optMem) / antiMem * 100 for int64-exact inputs; and every
averaged memory value the runner produces is int64-exact, so the formula
case covers all reachable values. -/
theorem computeMemImprovement_spec (antiMem optMem : Nat) :
    (antiMem ≤ 1024 → computeMemImprovement antiMem optMem = 0)
    ∧ (1024 < antiMem → antiMem < i64Bound → optMem < i64Bound →
        computeMemImprovement antiMem optMem
          = ((antiMem : ℚ) - (optMem : ℚ)) / (antiMem : ℚ) * 100)
    ∧ (∀ {σ ε : Type} (env : StoreEnv σ ε) (i : Nat)
        (pair : OptimizationPair σ ε) (s : σ),
        (runPair env i pair s).2.antiPatternResult.MemoryUsage < i64Bound
        ∧ (runPair env i pair s).2.optimizedResult.MemoryUsage < i64Bound) := by
  refine ⟨?_, ?_, ?_⟩
  · intro h
    simp only [computeMemImprovement]
    rw [if_neg (by omega)]
  · intro h hb1 hb2
    simp only [computeMemImprovement]
    rw [if_pos h, computeMemDiff_eq_sub antiMem optMem hb1 hb2]
    push_cast
    ring
  · intro σ ε env i pair s
    have e2 : (runPair env i pair s).2.antiPatternResult.MemoryUsage
        = (measureLoop env.runtime pair.AntiPatternName pair.AntiPatternFunc
            testRepetitions 0 (setupState env i pair s) 0 0).2.2
            / testRepetitions := rfl
    have e4 : (runPair env i pair s).2.optimizedResult.MemoryUsage
        = (measureLoop env.runtime pair.OptimizedName pair.OptimizedFunc
            testRepetitions 0
            ((measureLoop env.runtime pair.AntiPatternName pair.AntiPatternFunc
              testRepetitions 0 (setupState env i pair s) 0 0).1) 0 0).2.2
            / testRepetitions := rfl
    constructor
    · rw [e2, measureLoop_eq_profileRuns]
      exact memAverage_lt _ (successMemFold_lt _ 0 (by norm_num [u64Mod]))
    · rw [e4, measureLoop_eq_profileRuns]
      exact memAverage_lt _ (successMemFold_lt _ 0 (by norm_num [u64Mod]))

/-- C4, witness: below the floor the percentage is 0 even when the
optimized value is larger; above the floor, 2048 versus 512 bytes gives
exactly 75 percent. -/
theorem computeMemImprovement_spec_witness :
    computeMemImprovement 100 5000 = 0 ∧ computeMemImprovement 2048 512 = 75 := by
  refine ⟨(computeMemImprovement_spec 100 5000).1 (by omega), ?_⟩
  have h := (computeMemImprovement_spec 2048 512).2.1 (by omega)
    (by norm_num [i64Bound]) (by norm_num [i64Bound])
  rw [h]
  norm_num

/-- C6, counterexample: a --test list mixing a known name with an unknown
one does not terminate fatally; the run proceeds, executes the one matching
test (the final state counts one execution), and reports its result, so the
claim fails for mixed lists. -/
theorem runBenchmarkCmd_mixed_list_cex :
    runBenchmarkCmd natEnv incQueryImpls ["FindRecentEvents", "NoSuchTest"] 0
      = some (1, [{ Name := "FindRecentEvents", ExecutionTime := 0, MemoryUsage := 0 }])
    ∧ (runBenchmarkCmd natEnv incQueryImpls ["FindRecentEvents", "NoSuchTest"] 0).isSome = true := by
  constructor
  · decide
  · decide

/-- C6, amended: the run subcommand terminates fatally (none), with zero
test executions, exactly when the --test list is nonempty and none of its
names matches any catalogue entry; a list mixing unknown names with known
ones instead proceeds with the matching tests and silently ignores the
unknown names. -/
theorem runBenchmarkCmd_unknown_tests_fatal {σ ε : Type} (env : RuntimeEnv σ)
    (q : QueryImpls σ ε) (testsName : List String) (s : σ)
    (hne : testsName ≠ [])
    (hunknown : ∀ pair ∈ GetQueryTestPairs q, testsName.contains pair.Name = false) :
    runBenchmarkCmd env q testsName s = none := by
  unfold runBenchmarkCmd
  have hsel : selectTests testsName (GetQueryTestPairs q) = none := by
    unfold selectTests
    rw [if_pos (List.length_pos.mpr hne)]
    have hfil : (GetQueryTestPairs q).filter
        (fun pair => testsName.contains pair.Name) = [] := by
      apply List.filter_eq_nil_iff.mpr
      intro a ha
      simpa using hunknown a ha
    rw [hfil]
    simp
  rw [hsel]

/-- C6, witness for the amended theorem: a singleton list with an unknown
name is fatal. -/
theorem runBenchmarkCmd_unknown_tests_fatal_witness :
    runBenchmarkCmd natEnv incQueryImpls ["NoSuchTest"] 0 = none :=
  runBenchmarkCmd_unknown_tests_fatal natEnv incQueryImpls ["NoSuchTest"] 0
    (by decide) (by decide)

/-- C7: on the trace instrumentation, the third pair (index 2) creates the
index first, then warms up both variants once with results discarded, and
only then runs the measured repetitions (each preceded by its garbage
collection); any other pair performs no index creation and no warm-up; an
index-creation error changes nothing downstream (the run proceeds
identically), and for a pair other than index 2 the index-creation
operation is never invoked at all. -/
theorem runPair_setup_warmup_spec :
    ((runPair (traceStore none) 2 tracePair []).1
      = [TraceEv.idxEv, TraceEv.antiEv, TraceEv.optEv,
         TraceEv.gcEv, TraceEv.antiEv, TraceEv.gcEv, TraceEv.antiEv,
         TraceEv.gcEv, TraceEv.antiEv,
         TraceEv.gcEv, TraceEv.optEv, TraceEv.gcEv, TraceEv.optEv,
         TraceEv.gcEv, TraceEv.optEv])
    ∧ ((runPair (traceStore none) 0 tracePair []).1
      = [TraceEv.gcEv, TraceEv.antiEv, TraceEv.gcEv, TraceEv.antiEv,
         TraceEv.gcEv, TraceEv.antiEv,
         TraceEv.gcEv, TraceEv.optEv, TraceEv.gcEv, TraceEv.optEv,
         TraceEv.gcEv, TraceEv.optEv])
    ∧ ((runPair (traceStore (some ())) 2 tracePair []).1
      = (runPair (traceStore none) 2 tracePair []).1)
    ∧ (∀ {σ ε : Type} (rt : RuntimeEnv σ) (g : σ → σ) (e : ε) (i : Nat)
        (pair : OptimizationPair σ ε) (s : σ),
        runPair ⟨rt, fun t => (g t, some e)⟩ i pair s
          = runPair ⟨rt, fun t => (g t, none)⟩ i pair s)
    ∧ (∀ {σ ε : Type} (rt : RuntimeEnv σ) (c1 c2 : σ → σ × Option ε) (i : Nat)
        (pair : OptimizationPair σ ε) (s : σ), i ≠ 2 →
        runPair ⟨rt, c1⟩ i pair s = runPair ⟨rt, c2⟩ i pair s)
    ∧ (∀ {σ ε : Type} (env : StoreEnv σ ε) (pair : OptimizationPair σ ε) (s : σ),
        setupState env 2 pair s
          = (pair.OptimizedFunc ((pair.AntiPatternFunc ((env.createIndex s).1)).1)).1) := by
  refine ⟨by decide, by decide, by decide, ?_, ?_, ?_⟩
  · intro σ ε rt g e i pair s
    by_cases h : i = 2
    · subst h
      rfl
    · simp [runPair, setupState, h]
  · intro σ ε rt c1 c2 i pair s h
    simp [runPair, setupState, h]
  · intro σ ε env pair s
    simp [setupState]

/-- C7, witness: for the first pair (index 0) the behavior is independent
of the index-creation operation, including a failing one. -/
theorem runPair_setup_warmup_spec_witness :
    runPair ⟨traceRuntime, fun s => (s, (none : Option Unit))⟩ 0 tracePair []
      = runPair ⟨traceRuntime, fun s => (s ++ [TraceEv.idxEv], some ())⟩ 0 tracePair [] :=
  runPair_setup_warmup_spec.2.2.2.2.1 traceRuntime
    (fun s => (s, (none : Option Unit)))
    (fun s => (s ++ [TraceEv.idxEv], some ())) 0 tracePair [] (by decide)

/-- C8: the two variants of the projection pair evaluate the same filter
(severity level at least 3 and timestamp within the last 24 hours) over the
same store, so they select the same documents and report the same count —
the optimized variant merely projects the fields of each match; on the
seeded 100-document store with 10 matching documents both report 10. -/
theorem projection_pair_equal_counts :
    (∀ (store : List EventDoc) (now : Int),
      (FindAllFieldsAntiPattern store now).length
        = (FindWithProjectionOptimized store now).length)
    ∧ seedStore.length = 100
    ∧ (FindAllFieldsAntiPattern seedStore 0).length = 10
    ∧ (FindWithProjectionOptimized seedStore 0).length = 10 := by
  refine ⟨?_, by decide, by decide, by decide⟩
  intro store now
  unfold FindAllFieldsAntiPattern FindWithProjectionOptimized
  rw [List.length_map]

/-- C9: in the run subcommand, every selected test is profiled exactly once
(one garbage collection per catalogue entry on the counting
instrumentation) whether or not it fails; the results summary contains
exactly the results of the successful tests, in order, with failed tests
omitted; and whenever test selection succeeds the command returns the
summary — a per-query error never produces the fatal outcome. -/
theorem run_subcommand_error_containment :
    (∀ {σ ε : Type} (env : RuntimeEnv σ) (ps : List (QueryTestPair σ ε))
        (s : σ) (k : Nat),
      ((runTests (countGCEnv env) (ps.map liftTestPair) (s, k)).1).2 = k + ps.length)
    ∧ (∀ {σ ε : Type} (env : RuntimeEnv σ) (ps : List (QueryTestPair σ ε)) (s : σ),
      runTests env ps s
        = ((testOutcomes env ps s).1,
           ((testOutcomes env ps s).2.filter (fun o => o.2.isNone)).map (fun o => o.1)))
    ∧ (∀ {σ ε : Type} (env : RuntimeEnv σ) (q : QueryImpls σ ε)
        (testsName : List String) (ps : List (QueryTestPair σ ε)) (s : σ),
        selectTests testsName (GetQueryTestPairs q) = some ps →
        runBenchmarkCmd env q testsName s = some (runTests env ps s)) := by
  refine ⟨?_, ?_, ?_⟩
  · intro σ ε env ps s k
    exact runTests_gcCount env ps s k
  · intro σ ε env ps s
    exact runTests_eq_testOutcomes env ps s
  · intro σ ε env q testsName ps s h
    unfold runBenchmarkCmd
    rw [h]

/-- C9, witness: with no --test flags the whole catalogue is selected and
the command returns the summary of the test loop. -/
theorem run_subcommand_error_containment_witness :
    runBenchmarkCmd natEnv incQueryImpls [] 0
      = some (runTests natEnv (GetQueryTestPairs incQueryImpls) 0) :=
  run_subcommand_error_containment.2.2 natEnv incQueryImpls []
    (GetQueryTestPairs incQueryImpls) 0 rfl
